import Mathlib

/-
Verification of the MedLingua Bridge conversation controller.

The development shallowly embeds the state-bearing logic of the repository:
the two Index snapshots (toggle-based `Index.tsx` and tab-based variant),
the translation hooks (`useTranslation`, Groq and demo variants), the
text-to-speech hook (`useTextToSpeech`), and the voice recorder error
handler.  React state updates become explicit state passing; the effects a
handler performs on collaborators (speech synthesis calls, translation
requests, toast notifications) are returned as explicit lists alongside the
new state.  The asynchronous auto-translate effect is modelled as a step
relation over events (set the transcript, resolve an in-flight request).
-/

/-- Embedding of the JavaScript string `trim()` used throughout the source:
strip leading and trailing whitespace. -/
def jsTrim (s : String) : String :=
  String.mk (((s.data.dropWhile Char.isWhitespace).reverse.dropWhile Char.isWhitespace).reverse)

/-- Character-list prefix test, kernel-computable. -/
def isPrefixList : List Char → List Char → Bool
  | [], _ => true
  | _ :: _, [] => false
  | a :: as, b :: bs => a = b && isPrefixList as bs

/-- Character-list infix test, kernel-computable. -/
def hasInfixList (pat : List Char) : List Char → Bool
  | [] => isPrefixList pat []
  | c :: cs => isPrefixList pat (c :: cs) || hasInfixList pat cs

/-- Embedding of the JavaScript `String.prototype.includes` substring test
used by the Groq error categorizer. -/
def strIncludes (s pat : String) : Bool := hasInfixList pat.data s.data

/-- A toast notification as passed to the `useToast` hook:
`toast({title, description, variant})`. -/
structure ToastMsg where
  title : String
  description : String
  variant : String
deriving DecidableEq

namespace Tts

/-- React state of the `useTextToSpeech` hook: the `isSpeaking` flag. -/
structure State where
  isSpeaking : Bool
deriving DecidableEq

/-- Synchronous commands `speak` issues to the ambient speech-synthesis
engine: `window.speechSynthesis.cancel()` and
`window.speechSynthesis.speak(utterance)`. -/
inductive SynthCmd
  | cancel
  | speakUtt (text language : String)
deriving DecidableEq

/-- Embedding of `speak(text, language)` from `useTextToSpeech`.
`synthSupported` models the check that speechSynthesis is in window.
Returns the new hook state, the synthesis commands issued, and the toasts
emitted.  The source returns immediately when the trimmed text is empty;
otherwise, when supported, it cancels ongoing speech and queues the
utterance (the `isSpeaking` flag only changes later, via the asynchronous
utterance events); when unsupported it emits one toast. -/
def speak (st : State) (synthSupported : Bool) (text language : String) :
    State × List SynthCmd × List ToastMsg :=
  if jsTrim text = "" then (st, [], [])
  else if synthSupported then
    (st, [SynthCmd.cancel, SynthCmd.speakUtt text language], [])
  else
    (st, [], [⟨"Not Supported", "Text-to-speech is not supported in this browser.", "destructive"⟩])

/-- Embedding of the `utterance.onerror` handler from `useTextToSpeech`:
always sets `isSpeaking` to false; emits one toast unless the error cause
is canceled or interrupted. -/
def utteranceOnerror (st : State) (errCause : String) : State × List ToastMsg :=
  ({ st with isSpeaking := false },
   if errCause ≠ "canceled" ∧ errCause ≠ "interrupted" then
     [⟨"Speech Error", "Unable to play audio. Please try again.", "destructive"⟩]
   else [])

end Tts

namespace GroqTr

/-- Outcome of the awaited Groq chat-completion call inside `translateText`:
either a completion whose optional message content is returned, or a thrown
error carrying a message string. -/
inductive TrOutcome
  | success (content : Option String)
  | failure (errMessage : String)

/-- The error-message categorizer of the catch block in the Groq
`translateText`: message containing 401 maps to the authentication notice,
429 to the rate-limit notice, anything else to the generic notice. -/
def errorMessageFor (msg : String) : String :=
  if strIncludes msg "401" then "Authentication failed. Please check API configuration."
  else if strIncludes msg "429" then "Too many requests. Please try again later."
  else "Unable to translate text. Please try again."

/-- The catch block of the Groq `translateText`: emit one categorized toast
and return the original text. -/
def catchBlock (text msg : String) : String × List ToastMsg :=
  (text, [⟨"Translation Error", errorMessageFor msg, "destructive"⟩])

/-- Embedding of `translateText(text, fromLang, toLang)` from the Groq
variant of `useTranslation`.  Empty trimmed input returns the empty string
with no toast; an uninitialized service emits one toast and returns the
input; a successful completion returns the trimmed content unless it is
missing or empty, which the source turns into a thrown error caught by the
catch block; any thrown error reaches the catch block, which emits one
categorized toast and returns the original text.  The function is total:
no outcome escapes as an exception. -/
def translateText (serviceReady : Bool) (text fromLang toLang : String)
    (outcome : TrOutcome) : String × List ToastMsg :=
  if jsTrim text = "" then ("", [])
  else if serviceReady = false then
    (text, [⟨"Translation Error", "Translation service not initialized", "destructive"⟩])
  else
    match outcome with
    | TrOutcome.success content =>
      match content with
      | none => catchBlock text "No translation received"
      | some c => if jsTrim c = "" then catchBlock text "No translation received" else (jsTrim c, [])
    | TrOutcome.failure errMessage => catchBlock text errMessage

end GroqTr

namespace DemoTr

/-- Embedding of `translateText` from the demo variant of `useTranslation`
(`src/hooks/useTranslation.ts`).  `responseOk` models whether the fetch
succeeded with an ok response; any failure reaches the catch block, which
emits one generic toast and returns the original text. -/
def translateText (text fromLang toLang : String) (responseOk : Bool) :
    String × List ToastMsg :=
  if jsTrim text = "" then ("", [])
  else if responseOk then
    ("[" ++ toLang.toUpper ++ "] " ++ text, [])
  else
    (text,
     [⟨"Translation Error",
       "Unable to translate text. Please check your connection and try again.", "destructive"⟩])

end DemoTr

namespace Recorder

/-- State visible to the `VoiceRecorder` component: its own `isProcessing`
flag and the lifted `isRecording` flag it drives through
`onRecordingChange`. -/
structure State where
  isProcessing : Bool
  isRecording : Bool
deriving DecidableEq

/-- Embedding of the `recognition.onerror` handler in `VoiceRecorder`:
sets `isProcessing` to false, calls `onRecordingChange(false)`, and emits
one toast. -/
def onerror (s : State) : State × List ToastMsg :=
  ({ s with isProcessing := false, isRecording := false },
   [⟨"Recognition Error",
     "There was an issue with speech recognition. Please try again.", "destructive"⟩])

end Recorder

namespace Index

/-- React state of the toggle-policy `Index` component (`Index.tsx`):
language pair, the two transcripts, the recording flag, the `isSpeaking`
value read from the text-to-speech hook, and the `lastSpokenTranslation`
ref that implements the speak gate. -/
structure State where
  sourceLanguage : String
  targetLanguage : String
  originalText : String
  translatedText : String
  isRecording : Bool
  isSpeaking : Bool
  lastSpokenTranslation : String
deriving DecidableEq

/-- Embedding of `switchRoles` from `Index.tsx`: swaps the two languages
and clears both transcripts.  The source does not touch the
`lastSpokenTranslation` ref here. -/
def switchRoles (s : State) : State :=
  { s with
    sourceLanguage := s.targetLanguage
    targetLanguage := s.sourceLanguage
    originalText := ""
    translatedText := "" }

/-- Embedding of `handleSpeak` from `Index.tsx`: speaks the translated
text only when not already speaking, the trimmed text is non-empty, and
the text differs from the last spoken translation; on firing it records
the text in the `lastSpokenTranslation` ref.  The speech-output call is
returned as a `(text, language)` pair. -/
def handleSpeak (s : State) : State × List (String × String) :=
  if s.isSpeaking = false ∧ jsTrim s.translatedText ≠ "" ∧
      s.translatedText ≠ s.lastSpokenTranslation then
    ({ s with lastSpokenTranslation := s.translatedText },
     [(s.translatedText, s.targetLanguage)])
  else (s, [])

/-- Embedding of `clearTranscripts` from `Index.tsx`: clears both
transcripts and resets the `lastSpokenTranslation` ref. -/
def clearTranscripts (s : State) : State :=
  { s with originalText := "", translatedText := "", lastSpokenTranslation := "" }

/-- Invoke `handleSpeak` a given number of times in succession,
collecting every speech-output call issued. -/
def speakN (s : State) : Nat → State × List (String × String)
  | 0 => (s, [])
  | n + 1 =>
    ((speakN (handleSpeak s).1 n).1,
     (handleSpeak s).2 ++ (speakN (handleSpeak s).1 n).2)

end Index

namespace TabIndex

/-- React state of the tab-policy `Index` variant: the active tab, the
language pair, the two transcripts, the recording flag, the `isSpeaking`
value from the text-to-speech hook, and the `hasSpokenOnce` ref that
implements the speak gate. -/
structure State where
  activeTab : String
  sourceLanguage : String
  targetLanguage : String
  originalText : String
  translatedText : String
  isRecording : Bool
  isSpeaking : Bool
  hasSpokenOnce : Bool
deriving DecidableEq

/-- Embedding of `switchToTab(tab)` from the tab-policy variant: records
the tab, swaps the languages unless the tab is patient, clears both
transcripts and resets the `hasSpokenOnce` ref. -/
def switchToTab (s : State) (tab : String) : State :=
  let s1 := { s with activeTab := tab }
  let s2 :=
    if tab = "patient" then s1
    else { s1 with sourceLanguage := s1.targetLanguage, targetLanguage := s1.sourceLanguage }
  { s2 with originalText := "", translatedText := "", hasSpokenOnce := false }

/-- Embedding of `handleSpeak` from the tab-policy variant: speaks only
when not already speaking, the trimmed text is non-empty, and
`hasSpokenOnce` is still false; on firing it sets `hasSpokenOnce`. -/
def handleSpeak (s : State) : State × List (String × String) :=
  if s.isSpeaking = false ∧ jsTrim s.translatedText ≠ "" ∧ s.hasSpokenOnce = false then
    ({ s with hasSpokenOnce := true }, [(s.translatedText, s.targetLanguage)])
  else (s, [])

/-- Embedding of `clearTranscripts` from the tab-policy variant: clears
both transcripts and resets the `hasSpokenOnce` ref. -/
def clearTranscripts (s : State) : State :=
  { s with originalText := "", translatedText := "", hasSpokenOnce := false }

/-- Invoke `handleSpeak` a given number of times in succession,
collecting every speech-output call issued. -/
def speakN (s : State) : Nat → State × List (String × String)
  | 0 => (s, [])
  | n + 1 =>
    ((speakN (handleSpeak s).1 n).1,
     (handleSpeak s).2 ++ (speakN (handleSpeak s).1 n).2)

end TabIndex

namespace Trans

/-- State of the auto-translate effect of the `Index` component, together
with the set of in-flight translation requests.  Each pending entry holds
the request identifier and the `(text, fromLang, toLang)` payload captured
when the effect issued `translateText`. -/
structure State where
  sourceLanguage : String
  targetLanguage : String
  originalText : String
  translatedText : String
  pending : List (Nat × String × String × String)
  nextId : Nat
deriving DecidableEq

/-- A translation request issued to the collaborator. -/
structure TrCall where
  reqId : Nat
  text : String
  fromLang : String
  toLang : String
deriving DecidableEq

/-- Events driving the auto-translate effect: the transcript is replaced
(running the effect body), or an in-flight request resolves (running the
`.then` continuation of that request). -/
inductive Event
  | setText (t : String)
  | resolveReq (i : Nat)

/-- One step of the auto-translate effect, parametrized by the
collaborator translation function `tr`.  On `setText` with non-empty
trimmed text the effect issues a translation request; with empty trimmed
text it clears `translatedText` and issues nothing.  On `resolveReq` the
`.then` continuation runs `setTranslatedText(translation)`
unconditionally: the source has no request-identity guard, so a stale
resolution overwrites whatever is current. -/
def step (tr : String → String → String → String) (s : State) :
    Event → State × List TrCall
  | Event.setText t =>
    if jsTrim t ≠ "" then
      ({ s with
          originalText := t
          pending := s.pending ++ [(s.nextId, t, s.sourceLanguage, s.targetLanguage)]
          nextId := s.nextId + 1 },
       [⟨s.nextId, t, s.sourceLanguage, s.targetLanguage⟩])
    else
      ({ s with originalText := t, translatedText := "" }, [])
  | Event.resolveReq i =>
    match s.pending.lookup i with
    | some p =>
      ({ s with
          translatedText := tr p.1 p.2.1 p.2.2
          pending := s.pending.filter (fun q => q.1 != i) }, [])
    | none => (s, [])

/-- Run a list of events from a state, keeping only the final state. -/
def runEvents (tr : String → String → String → String) (s : State) :
    List Event → State
  | [] => s
  | e :: es => runEvents tr (step tr s e).1 es

/-- A concrete injective collaborator translation used in the
stale-response scenario. -/
def exTr : String → String → String → String := fun t _ _ => "T-" ++ t

/-- The initial state of the `Index` component: English to Spanish, empty
transcripts, no pending requests. -/
def exInit : State := ⟨"en", "es", "", "", [], 0⟩

/-- The stale-response scenario: issue a request for text A, replace the
transcript with text B before A resolves, let the result of B arrive, and
then let the stale result of A arrive last. -/
def staleEvents : List Event :=
  [Event.setText "A", Event.setText "B", Event.resolveReq 1, Event.resolveReq 0]

end Trans

/-- Once the toggle-variant speak gate is closed (the translated text
equals the last spoken translation), any number of further `handleSpeak`
invocations leaves the state unchanged and issues no speech call. -/
theorem speakN_gated_toggle (n : Nat) :
    ∀ s : Index.State, s.translatedText = s.lastSpokenTranslation →
      Index.speakN s n = (s, []) := by
  induction n with
  | zero => intro s _; rfl
  | succ n ih =>
    intro s h
    have hstay : Index.handleSpeak s = (s, []) := by
      unfold Index.handleSpeak
      exact if_neg (fun hc => hc.2.2 h)
    simp [Index.speakN, hstay, ih s h]

/-- Once the tab-variant speak gate is closed (`hasSpokenOnce` is set),
any number of further `handleSpeak` invocations leaves the state
unchanged and issues no speech call. -/
theorem speakN_gated_tab (n : Nat) :
    ∀ s : TabIndex.State, s.hasSpokenOnce = true →
      TabIndex.speakN s n = (s, []) := by
  induction n with
  | zero => intro s _; rfl
  | succ n ih =>
    intro s h
    have hstay : TabIndex.handleSpeak s = (s, []) := by
      unfold TabIndex.handleSpeak
      exact if_neg (fun hc => by rw [h] at hc; exact Bool.noConfusion hc.2.2)
    simp [TabIndex.speakN, hstay, ih s h]

/-- Claim C1: from any state where the speak gate is open (not speaking,
non-empty trimmed translated text, and the gate record still clear), any
number of successive `handleSpeak` invocations with a fixed
`translatedText` issues exactly one speech-output call — in both the
toggle variant (gate: `lastSpokenTranslation`) and the tab variant (gate:
`hasSpokenOnce`). -/
theorem speak_gate_at_most_once :
    (∀ (s : Index.State) (n : Nat),
        s.isSpeaking = false → jsTrim s.translatedText ≠ "" →
        s.translatedText ≠ s.lastSpokenTranslation →
        (Index.speakN s (n + 1)).2 = [(s.translatedText, s.targetLanguage)]) ∧
    (∀ (t : TabIndex.State) (n : Nat),
        t.isSpeaking = false → jsTrim t.translatedText ≠ "" →
        t.hasSpokenOnce = false →
        (TabIndex.speakN t (n + 1)).2 = [(t.translatedText, t.targetLanguage)]) := by
  constructor
  · intro s n h1 h2 h3
    have hfire : Index.handleSpeak s =
        ({ s with lastSpokenTranslation := s.translatedText },
         [(s.translatedText, s.targetLanguage)]) := by
      unfold Index.handleSpeak
      exact if_pos ⟨h1, h2, h3⟩
    have hrest := speakN_gated_toggle n
      { s with lastSpokenTranslation := s.translatedText } rfl
    simp [Index.speakN, hfire, hrest]
  · intro t n h1 h2 h3
    have hfire : TabIndex.handleSpeak t =
        ({ t with hasSpokenOnce := true },
         [(t.translatedText, t.targetLanguage)]) := by
      unfold TabIndex.handleSpeak
      exact if_pos ⟨h1, h2, h3⟩
    have hrest := speakN_gated_tab n { t with hasSpokenOnce := true } rfl
    simp [TabIndex.speakN, hfire, hrest]

/-- Witness for C1: in both variants, two successive `handleSpeak`
invocations from a concrete ready state issue exactly one speech call. -/
theorem speak_gate_at_most_once_witness :
    (Index.speakN ⟨"en", "es", "hi", "hola", false, false, ""⟩ 2).2 = [("hola", "es")] ∧
    (TabIndex.speakN ⟨"patient", "en", "es", "hi", "hola", false, false, false⟩ 2).2 =
      [("hola", "es")] :=
  ⟨speak_gate_at_most_once.1 ⟨"en", "es", "hi", "hola", false, false, ""⟩ 1
      rfl (by decide) (by decide),
   speak_gate_at_most_once.2 ⟨"patient", "en", "es", "hi", "hola", false, false, false⟩ 1
      rfl (by decide) rfl⟩

/-- Counterexample to C2 as stated: in the stale-response scenario a
request for text A is issued, the transcript is then set to text B, the
result of B arrives, and finally the stale result of A arrives; the final
`translatedText` is the translation of A, not the translation of B — the
source has no request-identity guard, so the prior result does overwrite
newer state. -/
theorem stale_response_overwrites_newer :
    (Trans.runEvents Trans.exTr Trans.exInit Trans.staleEvents).translatedText = "T-A" ∧
    Trans.exTr "B" "en" "es" = "T-B" ∧ ("T-A" : String) ≠ "T-B" := by
  decide

/-- Claim C2 (amended): the code implements last-response-wins, not
last-request-wins — whenever an in-flight request resolves, its
translation overwrites `translatedText` unconditionally, whether or not a
newer transcript has been set in the meantime. -/
theorem resolve_applies_last_response :
    ∀ (tr : String → String → String → String) (s : Trans.State) (i : Nat)
      (p : String × String × String),
      s.pending.lookup i = some p →
      (Trans.step tr s (Trans.Event.resolveReq i)).1.translatedText = tr p.1 p.2.1 p.2.2 := by
  intro tr s i p h
  simp [Trans.step, h]

/-- Witness for the amended C2: resolving the stale request for text A
while the transcript already holds text B overwrites `translatedText`
with the translation of A. -/
theorem resolve_applies_last_response_witness :
    (Trans.step (fun t _ _ => "T-" ++ t)
        ⟨"en", "es", "B", "T-B", [(0, "A", "en", "es")], 2⟩
        (Trans.Event.resolveReq 0)).1.translatedText = "T-A" :=
  (resolve_applies_last_response (fun t _ _ => "T-" ++ t)
      ⟨"en", "es", "B", "T-B", [(0, "A", "en", "es")], 2⟩ 0 ("A", "en", "es")
      (by decide)).trans (by decide)

/-- Claim C3: for every non-empty input, when the Groq collaborator call
throws, `translateText` returns the original text with exactly one
categorized toast: a message containing 401 yields the authentication
notice, 429 the rate-limit notice, anything else the generic notice; the
demo variant likewise falls back to the original text with one generic
toast on failure. -/
theorem translate_failure_returns_original :
    ∀ (text fromLang toLang errMessage : String),
      jsTrim text ≠ "" →
      (GroqTr.translateText true text fromLang toLang
          (GroqTr.TrOutcome.failure errMessage)).1 = text ∧
      (GroqTr.translateText true text fromLang toLang
          (GroqTr.TrOutcome.failure errMessage)).2 =
        [⟨"Translation Error", GroqTr.errorMessageFor errMessage, "destructive"⟩] ∧
      (strIncludes errMessage "401" = true →
        GroqTr.errorMessageFor errMessage =
          "Authentication failed. Please check API configuration.") ∧
      (strIncludes errMessage "401" = false → strIncludes errMessage "429" = true →
        GroqTr.errorMessageFor errMessage = "Too many requests. Please try again later.") ∧
      (strIncludes errMessage "401" = false → strIncludes errMessage "429" = false →
        GroqTr.errorMessageFor errMessage = "Unable to translate text. Please try again.") ∧
      (DemoTr.translateText text fromLang toLang false).1 = text ∧
      (DemoTr.translateText text fromLang toLang false).2.length = 1 := by
  intro text fromLang toLang errMessage h
  refine ⟨?_, ?_, ?_, ?_, ?_, ?_, ?_⟩
  · simp [GroqTr.translateText, GroqTr.catchBlock, h]
  · simp [GroqTr.translateText, GroqTr.catchBlock, h]
  · intro h401; simp [GroqTr.errorMessageFor, h401]
  · intro h401 h429; simp [GroqTr.errorMessageFor, h401, h429]
  · intro h401 h429; simp [GroqTr.errorMessageFor, h401, h429]
  · simp [DemoTr.translateText, h]
  · simp [DemoTr.translateText, h]

/-- Witness for C3: an Unauthorized failure whose message contains 401
yields the original text back and one toast carrying the authentication
notice. -/
theorem translate_failure_returns_original_witness :
    (GroqTr.translateText true "Hello" "en" "es"
        (GroqTr.TrOutcome.failure "Request failed with status code 401")).1 = "Hello" ∧
    (GroqTr.translateText true "Hello" "en" "es"
        (GroqTr.TrOutcome.failure "Request failed with status code 401")).2 =
      [⟨"Translation Error", "Authentication failed. Please check API configuration.",
        "destructive"⟩] := by
  have h := translate_failure_returns_original "Hello" "en" "es"
    "Request failed with status code 401" (by decide)
  refine ⟨h.1, ?_⟩
  rw [h.2.1, h.2.2.1 (by decide)]

/-- Counterexample to C4 as stated: `switchRoles` in the toggle variant
does not reset the speak gate — starting from a state whose
`lastSpokenTranslation` ref holds hola, the ref still holds hola after
`switchRoles`, whereas a reset (as performed by `clearTranscripts`) would
leave it empty. -/
theorem switchRoles_keeps_speak_gate :
    (Index.switchRoles ⟨"en", "es", "hi", "hola", false, false, "hola"⟩).lastSpokenTranslation
      = "hola" ∧ ("hola" : String) ≠ "" := by
  decide

/-- Claim C4 (amended): both role-switch operations clear `originalText`
and `translatedText` (and swap the language pair as described); the tab
variant `switchToTab` also resets its speak gate `hasSpokenOnce`, but the
toggle variant `switchRoles` leaves its speak gate `lastSpokenTranslation`
unchanged. -/
theorem role_switch_clears_transcripts :
    (∀ s : Index.State,
        (Index.switchRoles s).originalText = "" ∧
        (Index.switchRoles s).translatedText = "" ∧
        (Index.switchRoles s).sourceLanguage = s.targetLanguage ∧
        (Index.switchRoles s).targetLanguage = s.sourceLanguage ∧
        (Index.switchRoles s).lastSpokenTranslation = s.lastSpokenTranslation) ∧
    (∀ (t : TabIndex.State) (tab : String),
        (TabIndex.switchToTab t tab).originalText = "" ∧
        (TabIndex.switchToTab t tab).translatedText = "" ∧
        (TabIndex.switchToTab t tab).hasSpokenOnce = false ∧
        (TabIndex.switchToTab t tab).activeTab = tab) := by
  constructor
  · intro s; exact ⟨rfl, rfl, rfl, rfl, rfl⟩
  · intro t tab
    by_cases h : tab = "patient" <;> simp [TabIndex.switchToTab, h]

/-- Claim C5: when the transcript is set to an empty or whitespace-only
string, the auto-translate effect clears `translatedText` immediately and
issues no translation request; every other field of the state, the
pending set included, is untouched. -/
theorem empty_text_clears_translation :
    ∀ (tr : String → String → String → String) (s : Trans.State) (t : String),
      jsTrim t = "" →
      Trans.step tr s (Trans.Event.setText t) =
        ({ s with originalText := t, translatedText := "" }, []) := by
  intro tr s t h
  simp [Trans.step, h]

/-- Witness for C5: setting a whitespace-only transcript over a state
holding a previous translation clears the translation and issues no
request. -/
theorem empty_text_clears_translation_witness :
    Trans.step (fun t _ _ => t) ⟨"en", "es", "hello", "hola", [], 3⟩
        (Trans.Event.setText "   ") =
      (⟨"en", "es", "   ", "", [], 3⟩, []) :=
  (empty_text_clears_translation (fun t _ _ => t)
      ⟨"en", "es", "hello", "hola", [], 3⟩ "   " (by decide)).trans (by decide)

/-- Claim C6: under the toggle policy, `switchRoles` applied twice
restores the original language pairing — the swap is an involution on the
`(sourceLanguage, targetLanguage)` pair. -/
theorem switchRoles_involution_on_languages :
    ∀ s : Index.State,
      (Index.switchRoles (Index.switchRoles s)).sourceLanguage = s.sourceLanguage ∧
      (Index.switchRoles (Index.switchRoles s)).targetLanguage = s.targetLanguage := by
  intro s; exact ⟨rfl, rfl⟩

/-- Claim C7: the `recognition.onerror` handler of the voice recorder
forces `isRecording` to false and clears the `isProcessing` flag from any
state, emitting exactly one toast, so the UI never stays in a stuck
recording state after a capture error. -/
theorem recognition_error_stops_recording :
    ∀ s : Recorder.State,
      (Recorder.onerror s).1.isRecording = false ∧
      (Recorder.onerror s).1.isProcessing = false ∧
      (Recorder.onerror s).2.length = 1 := by
  intro s; exact ⟨rfl, rfl, rfl⟩

/-- Claim C8: the `utterance.onerror` handler always sets `isSpeaking` to
false; it emits no toast when the error cause is canceled or interrupted
and exactly one generic toast for every other cause. -/
theorem speech_error_notification_policy :
    ∀ (st : Tts.State) (errCause : String),
      (Tts.utteranceOnerror st errCause).1.isSpeaking = false ∧
      (Tts.utteranceOnerror st errCause).2 =
        (if errCause = "canceled" ∨ errCause = "interrupted" then ([] : List ToastMsg)
         else [⟨"Speech Error", "Unable to play audio. Please try again.", "destructive"⟩]) := by
  intro st errCause
  refine ⟨rfl, ?_⟩
  by_cases h1 : errCause = "canceled" <;> by_cases h2 : errCause = "interrupted" <;>
    simp [Tts.utteranceOnerror, h1, h2]

/-- Claim C9: `clearTranscripts` clears both transcripts and resets the
speak gate in both variants, while leaving the active tab and the two
languages (and the recording and speaking flags) unchanged. -/
theorem clearTranscripts_frame :
    (∀ s : Index.State,
        (Index.clearTranscripts s).originalText = "" ∧
        (Index.clearTranscripts s).translatedText = "" ∧
        (Index.clearTranscripts s).lastSpokenTranslation = "" ∧
        (Index.clearTranscripts s).sourceLanguage = s.sourceLanguage ∧
        (Index.clearTranscripts s).targetLanguage = s.targetLanguage ∧
        (Index.clearTranscripts s).isRecording = s.isRecording ∧
        (Index.clearTranscripts s).isSpeaking = s.isSpeaking) ∧
    (∀ t : TabIndex.State,
        (TabIndex.clearTranscripts t).originalText = "" ∧
        (TabIndex.clearTranscripts t).translatedText = "" ∧
        (TabIndex.clearTranscripts t).hasSpokenOnce = false ∧
        (TabIndex.clearTranscripts t).activeTab = t.activeTab ∧
        (TabIndex.clearTranscripts t).sourceLanguage = t.sourceLanguage ∧
        (TabIndex.clearTranscripts t).targetLanguage = t.targetLanguage) := by
  constructor
  · intro s; exact ⟨rfl, rfl, rfl, rfl, rfl, rfl, rfl⟩
  · intro t; exact ⟨rfl, rfl, rfl, rfl, rfl, rfl⟩

/-- Claim C10: `speak` with an empty or whitespace-only text is a no-op:
the hook state is unchanged, no speech-synthesis command is issued, and
no toast is emitted, whatever the support flag and language. -/
theorem speak_empty_noop :
    ∀ (st : Tts.State) (synthSupported : Bool) (text language : String),
      jsTrim text = "" →
      Tts.speak st synthSupported text language = (st, [], []) := by
  intro st synthSupported text language h
  simp [Tts.speak, h]

/-- Witness for C10: speaking a whitespace-only string from a concrete
state does nothing. -/
theorem speak_empty_noop_witness :
    Tts.speak ⟨true⟩ true "   " "es" = (⟨true⟩, [], []) :=
  speak_empty_noop ⟨true⟩ true "   " "es" (by decide)
